import Mathlib

/-!
Verification of the boss-bus message-mediator library.

This file gives a shallow embedding of the parts of the library that the
verified properties are about:

* the locking middleware (src/boss_bus/middleware/lock.py),
* the logging middleware (src/boss_bus/middleware/log.py),
* the command bus (src/boss_bus/command.py),
* the event bus (src/boss_bus/event.py).

Machine integers and floats are modelled as Nat (the claims do not depend on
fractional times), Python exceptions as Except, and the mutable middleware
state as explicit state passing.  Handler callables are deep-embedded as a
small inductive of behaviours so that re-entrant calls into the locker can be
executed by a fuelled interpreter.
-/

deriving instance DecidableEq for Except

namespace BossBus

/-- A message, with the attributes that the locking middleware reads:
the locking marker (class attribute of LockingMessage), the optional
per-message timeout override (the attribute named by BusLocker.timeout_attr),
and an identity used to track which continuation invocations happen. -/
structure Msg where
  locking_message : Bool := false
  locking_timeout : Option Nat := none
  mid : Nat := 0
deriving DecidableEq

/-- Deep embedding of the continuation callables handed to BusLocker.handle
as next_middleware.  ret v is a handler run that returns v; raise e is a
handler run that raises exception e; enter m inner rest is a handler that
re-enters the same locker with locker.handle(m, inner), discards the nested
result (as the nested dispatch in the repository tests does) and continues
as rest. -/
inductive Beh where
  | ret (v : Nat)
  | raise (e : Nat)
  | enter (m : Msg) (inner : Beh) (rest : Beh)
deriving DecidableEq

/-- True iff the behaviour is a plain ret, i.e. a continuation that neither
raises nor re-enters the locker. -/
def Beh.isRet : Beh → Bool
  | .ret _ => true
  | _ => false

/-- The mutable state of one BusLocker instance, plus the clock and an
observation trace.  default_timeout, timeout, locking_thread and queue
mirror the fields set up in BusLocker.__init__; time models time.time();
trace records the mid of every message whose continuation the locker
invokes, in invocation order. -/
structure LockerSt where
  default_timeout : Nat
  timeout : Nat
  locking_thread : Nat
  queue : List (Msg × Beh)
  time : Nat
  trace : List Nat
deriving DecidableEq

/-- BusLocker.message_applicable: getattr(message, "locking_message", False). -/
def BusLocker.message_applicable (m : Msg) : Bool :=
  m.locking_message

/-- One check-and-step of the busy wait in BusLocker._wait_for_unlock:
while self.bus_locked: if time.time() > timeout: break.  lockedAt t is the
value the loop reads for self.bus_locked at poll instant t; the clock
advances by one per poll.  gas bounds the recursion; wait_loop below always
supplies gas = deadline + 1 - t, which makes the gas-exhausted branch
(where necessarily deadline < t) return t exactly as the loop body would. -/
def wait_go (lockedAt : Nat → Bool) (deadline : Nat) (gas t : Nat) : Nat :=
  match gas with
  | 0 => t
  | gas + 1 =>
    if lockedAt t then
      if deadline < t then t
      else wait_go lockedAt deadline gas (t + 1)
    else t

/-- BusLocker._wait_for_unlock, returning the time at which the wait exits.
The deadline is computed by the caller as
time.time() + getattr(message, self.timeout_attr, self.timeout.value). -/
def wait_loop (lockedAt : Nat → Bool) (deadline t : Nat) : Nat :=
  wait_go lockedAt deadline (deadline + 1 - t) t

mutual

/-- BusLocker.handle, fuelled.  none means the fuel ran out (never a
behaviour of the code).  tid is the value of get_thread_id() in the
executing thread.  Faithful to the source, including the absence of any
try/finally around result = next_middleware(message) and the fact that
_handle_queue iterates the queue without ever clearing it:

    thread_id = get_thread_id()
    if self.bus_locked:
        if self._in_locking_thread(thread_id):
            self._postpone_handling(message, next_middleware); return None
        self._wait_for_unlock(message)
    if not self.message_applicable(message):
        return next_middleware(message)
    self._lock_bus(thread_id, message)
    result = next_middleware(message)
    self._unlock_bus()
    self._handle_queue()
    return result

The two nested ifs of the locked branch are flattened into the conjunction
below; since the lock state cannot change during a single-threaded run, the
wait is entered with the constant re-read of self.bus_locked. -/
def BusLocker.handle (fuel tid : Nat) (s : LockerSt) (m : Msg) (next : Beh) :
    Option (LockerSt × Except Nat (Option Nat)) :=
  match fuel with
  | 0 => none
  | fuel + 1 =>
    if s.locking_thread ≠ 0 ∧ s.locking_thread = tid then
      some ({ s with queue := s.queue ++ [(m, next)] }, .ok none)
    else
      let deadline := s.time + m.locking_timeout.getD s.timeout
      let exitTime := wait_loop (fun _ => decide (s.locking_thread ≠ 0)) deadline s.time
      let s1 := if s.locking_thread ≠ 0 then { s with time := exitTime } else s
      if BusLocker.message_applicable m = false then
        match BusLocker.runBeh fuel tid { s1 with trace := s1.trace ++ [m.mid] } next with
        | none => none
        | some (s2, .error e) => some (s2, .error e)
        | some (s2, .ok v) => some (s2, .ok (some v))
      else
        let s2 := { s1 with timeout := m.locking_timeout.getD s1.default_timeout,
                            locking_thread := tid }
        match BusLocker.runBeh fuel tid { s2 with trace := s2.trace ++ [m.mid] } next with
        | none => none
        | some (s3, .error e) => some (s3, .error e)
        | some (s3, .ok v) =>
          let s4 := { s3 with locking_thread := 0 }
          match BusLocker.drainFrom fuel tid s4 0 with
          | none => none
          | some (s5, .error e) => some (s5, .error e)
          | some (s5, .ok _) => some (s5, .ok (some v))
termination_by structural fuel

/-- Runs a deep-embedded continuation.  Exceptions raised by a nested
locker call propagate (the handlers in the source install no handlers
around nested dispatches). -/
def BusLocker.runBeh (fuel tid : Nat) (s : LockerSt) (b : Beh) :
    Option (LockerSt × Except Nat Nat) :=
  match fuel with
  | 0 => none
  | fuel + 1 =>
    match b with
    | .ret v => some (s, .ok v)
    | .raise e => some (s, .error e)
    | .enter m inner rest =>
      match BusLocker.handle fuel tid s m inner with
      | none => none
      | some (s', .error e) => some (s', .error e)
      | some (s', .ok _) => BusLocker.runBeh fuel tid s' rest
termination_by structural fuel

/-- BusLocker._handle_queue: for msg, handler in self.queue: handler(msg).
Python iterates the live list by index, so the traversal is modelled by an
index into the current queue; the queue is never cleared. -/
def BusLocker.drainFrom (fuel tid : Nat) (s : LockerSt) (i : Nat) :
    Option (LockerSt × Except Nat Unit) :=
  match fuel with
  | 0 => none
  | fuel + 1 =>
    match s.queue.get? i with
    | none => some (s, .ok ())
    | some (m, cont) =>
      match BusLocker.runBeh fuel tid { s with trace := s.trace ++ [m.mid] } cont with
      | none => none
      | some (s2, .error e) => some (s2, .error e)
      | some (s2, .ok _) => BusLocker.drainFrom fuel tid s2 (i + 1)
termination_by structural fuel

end

/-- A straight-line continuation: perform the given re-entrant locker calls
one after the other (each with its own inner continuation) and finally
return v.  This is the shape of the handlers in the repository's nesting
tests, generalised to any number of nested dispatches. -/
def seqB : List (Msg × Beh) → Nat → Beh
  | [], v => .ret v
  | (m, c) :: rest, v => .enter m c (seqB rest v)

/-- Number of decimal digits of n, i.e. the length of str(n) for a Python
non-negative int: 1 digit for n less than 10, and log10 n + 1 in general
(str prints no leading zeros). -/
def numDigits (n : Nat) : Nat :=
  Nat.log 10 n + 1

/-- get_thread_id from middleware/lock.py:

    return int(str(os.getpid()) + str(threading.get_ident()))

Concatenating the decimal strings of pid and tid and reading the result
back as an integer yields pid * 10 ^ (number of digits of tid) + tid,
since str(pid) has no leading zeros. -/
def get_thread_id (pid tid : Nat) : Nat :=
  pid * 10 ^ numDigits tid + tid

/-- The effective wait timeout as claim C9 words it: the waiting message's
per-message override if provided, else the middleware default.  Modelled
from the spec to compare against the code, which instead falls back on the
shared self.timeout.value. -/
def specWaitTimeout (m : Msg) (s : LockerSt) : Nat :=
  m.locking_timeout.getD s.default_timeout

/-! ## Logging middleware (middleware/log.py) -/

/-- Which of the three logging message classes a message instance belongs
to: LoggingCommand, LoggingEvent or generic LoggingMessage. -/
inductive MsgKind where
  | command
  | event
  | generic
deriving DecidableEq

/-- The message_type class attribute: "command" on Command, "event" on
Event, "message" on the base Message. -/
def MsgKind.message_type : MsgKind → String
  | .command => "command"
  | .event => "event"
  | .generic => "message"

/-- The message_verbs class attribute of LoggingCommand, LoggingEvent and
LoggingMessage respectively. -/
def MsgKind.message_verbs : MsgKind → List String
  | .command => ["execute", "executed", "executing"]
  | .event => ["dispatch", "dispatched", "dispatching"]
  | .generic => ["handle", "handled", "handling"]

/-- Python str.capitalize: first character uppercased, the rest lowercased. -/
def pyCapitalize (s : String) : String :=
  match s.data with
  | [] => ""
  | c :: cs => String.mk (c.toUpper :: cs.map Char.toLower)

/-- A message as seen by the MessageLogger: its class (one of the three
logging classes), its message_name (the class name), and whether it carries
the logging_message marker (True on every LoggingMessage subclass; messages
without the marker read False via getattr's default). -/
structure LogMsg where
  kind : MsgKind
  message_name : String
  logging_message : Bool
deriving DecidableEq

/-- LoggingMessage.pre_handle_log. -/
def LogMsg.pre_handle_log (m : LogMsg) : String :=
  pyCapitalize (m.kind.message_verbs.getD 2 "") ++ " " ++ m.kind.message_type ++
    " <" ++ m.message_name ++ ">"

/-- LoggingMessage.post_handle_log. -/
def LogMsg.post_handle_log (m : LogMsg) : String :=
  "Successfully " ++ m.kind.message_verbs.getD 1 "" ++ " " ++ m.kind.message_type ++
    " <" ++ m.message_name ++ ">"

/-- LoggingMessage.error_log. -/
def LogMsg.error_log (m : LogMsg) : String :=
  "Failed " ++ m.kind.message_verbs.getD 2 "" ++ " " ++ m.kind.message_type ++
    " <" ++ m.message_name ++ ">"

/-- Log levels used by MessageLogger: logger.info and logger.exception
(the latter emits an ERROR-level record with exception info). -/
inductive LogLevel where
  | info
  | error
deriving DecidableEq

/-- MessageLogger.handle.  The outcome of next_middleware(message) is passed
in as next; the function returns the log records the middleware itself
emits, in emission order, together with the call's outcome:

    if not self.message_applicable(message):
        return next_middleware(message)
    self.logger.info(msg.pre_handle_log())
    try:
        result = next_middleware(message)
    except Exception:
        self.logger.exception(msg.error_log())
        raise
    self.logger.info(msg.post_handle_log())
    return result
-/
def MessageLogger.handle (m : LogMsg) (next : Except Nat (Option Nat)) :
    List (LogLevel × String) × Except Nat (Option Nat) :=
  if m.logging_message = false then ([], next)
  else
    match next with
    | .ok v => ([(.info, m.pre_handle_log), (.info, m.post_handle_log)], .ok v)
    | .error e => ([(.info, m.pre_handle_log), (.error, m.error_log)], .error e)

/-! ## Command bus (command.py) and event bus (event.py)

Python objects are modelled by records carrying an identity (hid, standing
for the object's address, so object equality is record equality), the
runtime class (htype / the declared annotation accepts), and whether the
value is an uninstantiated class. -/

/-- Errors raised by the buses. -/
inductive BusErr where
  | invalidHandler
  | missingHandler
  | tooManyHandlers
deriving DecidableEq

/-- Modelled from the spec: type_matches from boss_bus._utils.typing, whose
source is not in the repository snapshot.  Per the spec, a handler's
declared accepted message type must match the type it is bound to or used
with, so matching is equality of the declared type tag. -/
def type_matches (declared t : Nat) : Bool :=
  declared == t

/-- A command handler object: identity, the declared command annotation on
its handle method (get_annotations(handler.handle)["command"]), and whether
it is an uninstantiated class. -/
structure CmdHandler where
  hid : Nat
  accepts : Nat
  isClass : Bool := false
deriving DecidableEq

/-- A command instance; ctype is its runtime type, type(command). -/
structure Cmd where
  ctype : Nat
deriving DecidableEq

/-- _validate_handler from command.py: InvalidHandlerError if the handler is
an uninstantiated class or its declared command type does not match. -/
def CommandBus._validate_handler (command_type : Nat) (h : CmdHandler) : Option BusErr :=
  if h.isClass then some .invalidHandler
  else if type_matches h.accepts command_type = false then some .invalidHandler
  else none

/-- The CommandBus._handlers dict, as an association list keyed by command
type; dict.get returns the first binding. -/
def lookupCmdHandler (reg : List (Nat × CmdHandler)) (t : Nat) : Option CmdHandler :=
  (reg.find? (fun p => p.1 == t)).map (fun p => p.2)

/-- CommandBus.execute.  applyH gives the value returned by a handler's
handle method on a command (any value, possibly None); the function returns
the list of handle invocations made, in order, with the call's outcome:

    if handler:
        _validate_handler(type(command), handler)
    matched_handler = self._handlers.get(type(command), handler)
    if handler and handler != matched_handler:
        raise TooManyHandlersError(...)
    if not matched_handler:
        raise MissingHandlerError(...)
    return matched_handler.handle(command)
-/
def CommandBus.execute (applyH : CmdHandler → Cmd → Option Nat)
    (reg : List (Nat × CmdHandler)) (c : Cmd) (handler : Option CmdHandler) :
    List (CmdHandler × Cmd) × Except BusErr (Option Nat) :=
  let v : Option BusErr :=
    match handler with
    | some hh => CommandBus._validate_handler c.ctype hh
    | none => none
  match v with
  | some e => ([], .error e)
  | none =>
    let matched := (lookupCmdHandler reg c.ctype).orElse (fun _ => handler)
    if handler.isSome = true ∧ handler ≠ matched then ([], .error .tooManyHandlers)
    else
      match matched with
      | none => ([], .error .missingHandler)
      | some mh => ([(mh, c)], .ok (applyH mh c))

/-- An event handler object: identity, runtime class type(handler), the
declared event annotation of its handle method, and whether it is an
uninstantiated class. -/
structure EvHandler where
  hid : Nat
  htype : Nat
  accepts : Nat
  isClass : Bool := false
deriving DecidableEq

/-- An event instance; etype is its runtime type, type(event). -/
structure Ev where
  etype : Nat
deriving DecidableEq

/-- EventBus._handlers, a defaultdict(list) mapping event types to the
currently registered handler list; unknown types map to the empty list. -/
structure EventBus where
  handlers : Nat → List EvHandler

/-- _validate_handler from event.py. -/
def EventBus._validate_handler (event_type : Nat) (h : EvHandler) : Option BusErr :=
  if h.isClass then some .invalidHandler
  else if type_matches h.accepts event_type = false then some .invalidHandler
  else none

/-- EventBus.has_handlers: len(self._handlers[event_type]). -/
def EventBus.has_handlers (bus : EventBus) (t : Nat) : Nat :=
  (bus.handlers t).length

/-- EventBus.dispatch.  Returns the new bus state and the handle
invocations made, in order:

    if handlers is None:
        handlers = []
    matched_handlers = self._handlers[type(event)]
    matched_handlers.extend(handlers)
    for handler in matched_handlers:
        handler.handle(event)

matched_handlers is the very list object stored in the registry, so the
in-place extend adds the ad hoc handlers to the registry for good; the new
registry therefore maps type(event) to the extended list. -/
def EventBus.dispatch (bus : EventBus) (e : Ev) (handlers : Option (List EvHandler)) :
    EventBus × List (EvHandler × Ev) :=
  let hs := handlers.getD []
  let matched := bus.handlers e.etype ++ hs
  ({ handlers := fun t => if t = e.etype then matched else bus.handlers t },
   matched.map (fun h => (h, e)))

/-- The loop body of EventBus.remove_handlers over the requested handlers:

    for handler in handlers:
        _validate_handler(event_type, handler)
        matching_handlers = [r for r in self._handlers[event_type]
                             if type(handler) is type(r)]
        if not matching_handlers:
            raise MissingHandlerError(...)
        for matched_handler in matching_handlers:
            self._handlers[event_type].remove(matched_handler)

list.remove deletes the first occurrence equal (by default, identical) to
its argument; removing every element of matching_handlers in turn deletes
exactly the occurrences whose runtime class equals type(handler), i.e.
filters them out.  A raise leaves the removals already made in place, so on
error the partially mutated bus is returned. -/
def EventBus.removeList (event_type : Nat) (bus : EventBus) :
    List EvHandler → EventBus × Option BusErr
  | [] => (bus, none)
  | h :: rest =>
    match EventBus._validate_handler event_type h with
    | some err => (bus, some err)
    | none =>
      let matching := (bus.handlers event_type).filter (fun r => r.htype == h.htype)
      if matching.isEmpty then (bus, some .missingHandler)
      else
        let bus' : EventBus :=
          { handlers := fun t =>
              if t = event_type then
                (bus.handlers event_type).filter (fun r => !(r.htype == h.htype))
              else bus.handlers t }
        EventBus.removeList event_type bus' rest

/-- EventBus.remove_handlers: with handlers omitted (None) the type's list
is replaced by []; otherwise the requested handlers are processed in order
by the loop above. -/
def EventBus.remove_handlers (bus : EventBus) (event_type : Nat)
    (hs : Option (List EvHandler)) : EventBus × Option BusErr :=
  match hs with
  | none => ({ handlers := fun t => if t = event_type then [] else bus.handlers t }, none)
  | some l => EventBus.removeList event_type bus l

/-! ## Concrete scenario values used by the executable theorems -/

/-- A locking message (a LockingCommand instance, say) with no timeout
override, identity 1. -/
def mLock1 : Msg := { locking_message := true, locking_timeout := none, mid := 1 }

/-- A second locking message, identity 2. -/
def mLock2 : Msg := { locking_message := true, locking_timeout := none, mid := 2 }

/-- A third locking message, identity 3. -/
def mLock3 : Msg := { locking_message := true, locking_timeout := none, mid := 3 }

/-- A message without the locking marker, identity 4. -/
def mPlain : Msg := { locking_message := false, locking_timeout := none, mid := 4 }

/-- A freshly constructed BusLocker(): default timeout 5, unlocked, empty
queue. -/
def sIdle : LockerSt :=
  { default_timeout := 5, timeout := 5, locking_thread := 0, queue := [], time := 0,
    trace := [] }

/-- The state reached after handling mLock1 from sIdle with a handler that
postpones mLock2: unlocked, but the drained entry is still in the queue. -/
def sAfterFirst : LockerSt :=
  { default_timeout := 5, timeout := 5, locking_thread := 0,
    queue := [(mLock2, .ret 7)], time := 0, trace := [1, 2] }

/-- A locker whose lock is held by thread 11 (the caller's own id in the
re-entrancy scenarios). -/
def sOwned : LockerSt :=
  { default_timeout := 5, timeout := 5, locking_thread := 11, queue := [], time := 0,
    trace := [] }

/-- A locker locked by thread 7 whose shared timeout value was last set to
2 by the locking message, while the default timeout is 5. -/
def sLockedByOther : LockerSt :=
  { default_timeout := 5, timeout := 2, locking_thread := 7, queue := [], time := 0,
    trace := [] }

/-- An event bus with nothing registered. -/
def busEmpty : EventBus := ⟨fun _ => []⟩

/-- An event handler instance of class 100 accepting event type 50. -/
def hEv1 : EvHandler := { hid := 1, htype := 100, accepts := 50, isClass := false }

/-- A second, distinct handler instance of the same class 100. -/
def hEv2 : EvHandler := { hid := 2, htype := 100, accepts := 50, isClass := false }

/-- A handler instance of a class 200 that is not registered anywhere. -/
def hEvOther : EvHandler := { hid := 3, htype := 200, accepts := 50, isClass := false }

/-- An event instance of type 50. -/
def evDemo : Ev := ⟨50⟩

/-- An event bus with the two same-class handler instances registered for
event type 50. -/
def busTwo : EventBus := ⟨fun t => if t = 50 then [hEv1, hEv2] else []⟩

/-! ## Helper lemmas about the locker interpreter -/

/-- Closed form of the busy wait when the lock state reads as constantly
locked (the single-threaded case): the loop spins until the deadline has
passed and exits at deadline + 1, or immediately if already past it. -/
theorem wait_go_true (deadline : Nat) :
    ∀ gas t, deadline + 1 ≤ gas + t →
      wait_go (fun _ => true) deadline gas t = if deadline < t then t else deadline + 1 := by
  intro gas
  induction gas with
  | zero =>
    intro t ht
    have h : deadline < t := by omega
    simp [wait_go, h]
  | succ g ih =>
    intro t ht
    by_cases h : deadline < t
    · simp [wait_go, h]
    · have step : wait_go (fun _ => true) deadline (g + 1) t =
          wait_go (fun _ => true) deadline g (t + 1) := by
        simp [wait_go, h]
      rw [step, ih (t + 1) (by omega)]
      split_ifs <;> omega

/-- wait_loop under a constantly locked reading. -/
theorem wait_loop_true (deadline t : Nat) :
    wait_loop (fun _ => true) deadline t = if deadline < t then t else deadline + 1 :=
  wait_go_true deadline (deadline + 1 - t) t (by omega)

/-- The busy wait re-checks the lock and stops exactly when it reads
unlocked or the deadline has passed: the exit instant is at or after the
start, satisfies the exit condition, and every strictly earlier polled
instant read locked and was within the deadline. -/
theorem wait_go_exit (lockedAt : Nat → Bool) (deadline : Nat) :
    ∀ gas t, deadline + 1 ≤ gas + t →
      t ≤ wait_go lockedAt deadline gas t ∧
      (lockedAt (wait_go lockedAt deadline gas t) = false ∨
        deadline < wait_go lockedAt deadline gas t) ∧
      (∀ u, t ≤ u → u < wait_go lockedAt deadline gas t →
        lockedAt u = true ∧ u ≤ deadline) := by
  intro gas
  induction gas with
  | zero =>
    intro t ht
    refine ⟨by simp [wait_go], Or.inr (by simp [wait_go]; omega), ?_⟩
    intro u hu hu2
    simp [wait_go] at hu2
    omega
  | succ g ih =>
    intro t ht
    cases hL : lockedAt t with
    | false =>
      have hr : wait_go lockedAt deadline (g + 1) t = t := by simp [wait_go, hL]
      rw [hr]
      refine ⟨Nat.le_refl t, Or.inl hL, ?_⟩
      intro u hu hu2
      omega
    | true =>
      by_cases hD : deadline < t
      · simp [wait_go, hL, hD]
        intro u hu hu2
        omega
      · have step : wait_go lockedAt deadline (g + 1) t =
            wait_go lockedAt deadline g (t + 1) := by
          simp [wait_go, hL, hD]
        obtain ⟨ih1, ih2, ih3⟩ := ih (t + 1) (by omega)
        rw [step]
        refine ⟨by omega, ih2, ?_⟩
        intro u hu hu2
        rcases Nat.eq_or_lt_of_le hu with rfl | hu'
        · exact ⟨hL, by omega⟩
        · exact ih3 u hu' hu2

/-- Exit property of the wait loop as called by the locker. -/
theorem wait_loop_exit (lockedAt : Nat → Bool) (deadline t : Nat) :
    t ≤ wait_loop lockedAt deadline t ∧
    (lockedAt (wait_loop lockedAt deadline t) = false ∨
      deadline < wait_loop lockedAt deadline t) ∧
    (∀ u, t ≤ u → u < wait_loop lockedAt deadline t →
      lockedAt u = true ∧ u ≤ deadline) :=
  wait_go_exit lockedAt deadline (deadline + 1 - t) t (by omega)

/-- While the bus is locked by the calling thread itself, handle appends
the message and its continuation to the postponement queue and returns
None at once, leaving every other component of the state, and in
particular the invocation trace, unchanged. -/
theorem handle_postpone (fuel tid : Nat) (s : LockerSt) (m : Msg) (next : Beh)
    (h0 : s.locking_thread ≠ 0) (h1 : s.locking_thread = tid) :
    BusLocker.handle (fuel + 1) tid s m next =
      some ({ s with queue := s.queue ++ [(m, next)] }, .ok none) := by
  rw [BusLocker.handle]
  rw [if_pos ⟨h0, h1⟩]

/-- Running a straight-line continuation while the caller owns the lock
postpones every nested call, in order, onto the end of the queue and
returns the continuation's final value. -/
theorem runBeh_seqB (tid : Nat) (htid : tid ≠ 0) :
    ∀ (ps : List (Msg × Beh)) (v fuel : Nat) (s : LockerSt),
      ps.length < fuel → s.locking_thread = tid →
      BusLocker.runBeh fuel tid s (seqB ps v) =
        some ({ s with queue := s.queue ++ ps }, .ok v) := by
  intro ps
  induction ps with
  | nil =>
    intro v fuel s hf hs
    obtain ⟨f, rfl⟩ : ∃ f, fuel = f + 1 := ⟨fuel - 1, by omega⟩
    simp [BusLocker.runBeh, seqB]
  | cons p rest ih =>
    intro v fuel s hf hs
    obtain ⟨m, c⟩ := p
    obtain ⟨f, rfl⟩ : ∃ f, fuel = f + 1 := ⟨fuel - 1, by omega⟩
    obtain ⟨f', rfl⟩ : ∃ f', f = f' + 1 := ⟨f - 1, by simp at hf; omega⟩
    rw [seqB, BusLocker.runBeh, handle_postpone f' tid s m c (by omega) hs]
    dsimp only
    rw [ih v (f' + 1) _ (by simp at hf ⊢; omega) (by simpa using hs)]
    simp [List.append_assoc]

/-- Draining a queue whose pending continuations are all plain returns
appends the queued message ids to the trace in queue (FIFO) order and
succeeds, leaving the rest of the state, including the queue itself,
unchanged. -/
theorem drainFrom_rets (tid : Nat) :
    ∀ (fuel : Nat) (s : LockerSt) (i : Nat),
      2 * (s.queue.length - i) < fuel →
      (∀ p ∈ s.queue, p.2.isRet = true) →
      BusLocker.drainFrom fuel tid s i =
        some ({ s with trace := s.trace ++ (s.queue.drop i).map (fun p => p.1.mid) },
          .ok ()) := by
  intro fuel
  induction fuel with
  | zero =>
    intro s i hf hq
    omega
  | succ f ih =>
    intro s i hf hq
    rw [BusLocker.drainFrom]
    cases hi : s.queue.get? i with
    | none =>
      have hle : s.queue.length ≤ i := List.get?_eq_none.mp hi
      simp [List.drop_eq_nil_of_le hle]
    | some p =>
      obtain ⟨m, c⟩ := p
      have hmem : (m, c) ∈ s.queue := List.get?_mem hi
      have hc := hq _ hmem
      obtain ⟨w, rfl⟩ : ∃ w, c = .ret w := by
        cases c <;> simp [Beh.isRet] at hc ⊢
      obtain ⟨hlt, hget⟩ := List.get?_eq_some.mp hi
      obtain ⟨f', rfl⟩ : ∃ f', f = f' + 1 := ⟨f - 1, by omega⟩
      dsimp only
      rw [BusLocker.runBeh]
      dsimp only
      rw [ih { s with trace := s.trace ++ [m.mid] } (i + 1) (by simp; omega) (by simpa using hq)]
      have hdrop : s.queue.drop i = (m, Beh.ret w) :: s.queue.drop (i + 1) := by
        rw [List.drop_eq_get_cons hlt, hget]
      rw [hdrop]
      simp [List.append_assoc]

/-! ## Claim theorems -/

/-- C1: handling a locking message from an idle locker with a handler that
postpones one nested message and then raises exception 3 propagates the
exception unchanged, but leaves locking_thread set to the caller's id 11
(the lock is NOT released) and the single queued entry undrained (the trace
records only the outer invocation): BusLocker.handle has no try/finally
around the wrapped invocation, contradicting the claimed exception safety. -/
theorem busLocker_exception_leaves_lock_held :
    (BusLocker.handle 10 11 sIdle mLock1
        (Beh.enter mLock2 (Beh.ret 7) (Beh.raise 3))).map
      (fun r => (r.2, r.1.locking_thread, r.1.queue.length, r.1.trace)) =
    some (.error 3, 11, 1, [1]) := by decide

/-- C2: after a lock/unlock cycle in which mLock2 was postponed and then
drained, the queue still contains the drained entry (it is never cleared),
and a later, unrelated lock/unlock cycle drains it again, so the postponed
message's continuation runs twice (its id 2 occurs twice in the invocation
trace), contradicting the claimed invariant that the queue is empty after
unlock and each postponed message is invoked exactly once. -/
theorem busLocker_queue_not_cleared_reinvoked :
    BusLocker.handle 20 11 sIdle mLock1 (Beh.enter mLock2 (Beh.ret 7) (Beh.ret 1)) =
      some (sAfterFirst, .ok (some 1)) ∧
    sAfterFirst.locking_thread = 0 ∧ sAfterFirst.queue ≠ [] ∧
    (BusLocker.handle 20 11 sAfterFirst mLock3 (Beh.ret 9)).map
      (fun r => (r.1.trace.count 2, r.1.queue.length, r.2)) =
      some (2, 1, .ok (some 9)) := by decide

/-- C6: (a) every call made while the bus is locked and the caller's id
equals the lock owner appends (message, next) to the postponement queue and
returns None immediately, invoking nothing; (b) for an outer locking
message whose handler performs any straight-line sequence of re-entrant
calls and returns v, the outer handle call locks, runs the handler (which
postpones each nested pair in order), unlocks, then drains the queue by
invoking each queued continuation synchronously in original enqueue (FIFO)
order — the trace is the outer message id followed by the queued ids in
order — and returns the outer handler's result v, discarding drain
results. -/
theorem busLocker_postpone_and_fifo_drain :
    (∀ (fuel tid : Nat) (s : LockerSt) (m : Msg) (next : Beh),
      s.locking_thread ≠ 0 → s.locking_thread = tid → m.locking_message = true →
      BusLocker.handle (fuel + 1) tid s m next =
        some ({ s with queue := s.queue ++ [(m, next)] }, .ok none)) ∧
    (∀ (ps : List (Msg × Beh)) (v fuel tid : Nat) (s : LockerSt) (m : Msg),
      tid ≠ 0 → s.locking_thread = 0 → s.queue = [] → m.locking_message = true →
      (∀ p ∈ ps, p.2.isRet = true) → 2 * ps.length + 1 < fuel →
      BusLocker.handle fuel tid s m (seqB ps v) =
        some ({ default_timeout := s.default_timeout,
                timeout := m.locking_timeout.getD s.default_timeout,
                locking_thread := 0,
                queue := ps,
                time := s.time,
                trace := s.trace ++ m.mid :: ps.map (fun p => p.1.mid) },
          .ok (some v))) := by
  constructor
  · intro fuel tid s m next h0 h1 _
    exact handle_postpone fuel tid s m next h0 h1
  · intro ps v fuel tid s m htid hs0 hq0 hm hrets hf
    obtain ⟨f, rfl⟩ : ∃ f, fuel = f + 1 := ⟨fuel - 1, by omega⟩
    rw [BusLocker.handle]
    simp only [hs0, ne_eq, not_true_eq_false, false_and, if_false,
      BusLocker.message_applicable, hm, Bool.true_eq_false]
    rw [runBeh_seqB tid htid ps v f _ (by omega) rfl]
    dsimp only
    rw [drainFrom_rets tid f _ 0 (by simp [hq0]; omega) (by simpa [hq0] using hrets)]
    simp [hq0]

/-- C9 counterexample: a locker whose current shared timeout value is 2
(set by the last lock acquisition) but whose middleware default is 5, when
handled by a different thread with a message carrying no override, waits
only until the shared value 2 elapses (exiting the wait at time 3 = 0 + 2
+ 1) and then proceeds, whereas the claim's effective timeout (override
else the middleware default) predicts waiting until time 6. -/
theorem busLocker_wait_uses_shared_timeout :
    (BusLocker.handle 5 3 sLockedByOther mLock1 (Beh.ret 4)).map
      (fun r => (r.1.time, r.2)) = some (3, .ok (some 4)) ∧
    sLockedByOther.time + specWaitTimeout mLock1 sLockedByOther + 1 = 6 ∧
    (3 : Nat) ≠ 6 := by decide

/-- C9 (amended): a caller that finds the bus locked by a different owner
busy-waits, re-checking the lock each instant, and exits exactly when the
lock reads unlocked or the deadline has passed (never before); with the
lock never released, the wait ends one instant after the effective timeout
— the message's per-message override if provided, else the locker's current
shared timeout value (not the middleware default) — and the call then
proceeds anyway: it acquires the lock, runs the handler, unlocks and
returns the handler's result, raising no exception of its own. -/
theorem busLocker_wait_timeout_degrades :
    (∀ (lockedAt : Nat → Bool) (deadline t : Nat),
      t ≤ wait_loop lockedAt deadline t ∧
      (lockedAt (wait_loop lockedAt deadline t) = false ∨
        deadline < wait_loop lockedAt deadline t) ∧
      (∀ u, t ≤ u → u < wait_loop lockedAt deadline t →
        lockedAt u = true ∧ u ≤ deadline)) ∧
    (∀ (fuel tid v : Nat) (s : LockerSt) (m : Msg),
      s.locking_thread ≠ 0 → s.locking_thread ≠ tid → m.locking_message = true →
      s.queue = [] → 1 < fuel →
      BusLocker.handle fuel tid s m (.ret v) =
        some ({ default_timeout := s.default_timeout,
                timeout := m.locking_timeout.getD s.default_timeout,
                locking_thread := 0,
                queue := [],
                time := s.time + m.locking_timeout.getD s.timeout + 1,
                trace := s.trace ++ [m.mid] },
          .ok (some v))) := by
  constructor
  · exact fun lockedAt deadline t => wait_loop_exit lockedAt deadline t
  · intro fuel tid v s m hlocked hother hm hq0 hf
    obtain ⟨f, rfl⟩ : ∃ f, fuel = f + 1 := ⟨fuel - 1, by omega⟩
    obtain ⟨f', rfl⟩ : ∃ f', f = f' + 1 := ⟨f - 1, by omega⟩
    rw [BusLocker.handle]
    rw [if_neg (by intro hcon; exact hother hcon.2)]
    simp only [hlocked, if_true, ne_eq, not_false_eq_true,
      BusLocker.message_applicable, hm, Bool.true_eq_false, if_false]
    have hfun : (fun _ : Nat => decide True) = fun _ : Nat => true := by
      funext u
      simp
    rw [hfun, wait_loop_true]
    have hnd : ¬(s.time + m.locking_timeout.getD s.timeout < s.time) := by omega
    rw [if_neg hnd]
    rw [BusLocker.runBeh]
    dsimp only
    rw [drainFrom_rets tid (f' + 1) _ 0 (by simp [hq0]) (by simp [hq0])]
    simp [hq0]

/-- C10: a message without the locking marker, handled while the bus is
locked and the caller's id equals the lock owner, is postponed exactly like
a locking message: (message, next) is appended to the queue and handle
returns None at once without invoking next (the trace is unchanged), so the
message does not pass straight through and its result is never returned to
that caller. -/
theorem busLocker_nonlocking_postponed_for_owner
    (fuel tid : Nat) (s : LockerSt) (m : Msg) (next : Beh)
    (hlocked : s.locking_thread ≠ 0) (howner : s.locking_thread = tid)
    (_hnl : m.locking_message = false) :
    BusLocker.handle (fuel + 1) tid s m next =
      some ({ s with queue := s.queue ++ [(m, next)] }, .ok none) :=
  handle_postpone fuel tid s m next hlocked howner

/-- C10 witness: the non-locking message mPlain, arriving while thread 11
holds the lock, is queued and the call returns None. -/
theorem busLocker_nonlocking_postponed_for_owner_witness :
    sOwned.locking_thread ≠ 0 ∧ sOwned.locking_thread = 11 ∧
    mPlain.locking_message = false ∧
    BusLocker.handle 1 11 sOwned mPlain (.ret 5) =
      some ({ sOwned with queue := sOwned.queue ++ [(mPlain, .ret 5)] }, .ok none) :=
  ⟨by decide, by decide, by decide,
    busLocker_nonlocking_postponed_for_owner 0 11 sOwned mPlain (.ret 5)
      (by decide) (by decide) (by decide)⟩

/-- C6 witness: part (a) at a held lock with a locking message, and part
(b) for an outer locking message whose handler postpones one nested
locking message and returns 1. -/
theorem busLocker_postpone_and_fifo_drain_witness :
    (sOwned.locking_thread ≠ 0 ∧ sOwned.locking_thread = 11 ∧
      mLock1.locking_message = true ∧
      BusLocker.handle 1 11 sOwned mLock1 (.ret 0) =
        some ({ sOwned with queue := sOwned.queue ++ [(mLock1, .ret 0)] }, .ok none)) ∧
    ((11 : Nat) ≠ 0 ∧ sIdle.locking_thread = 0 ∧ sIdle.queue = [] ∧
      mLock1.locking_message = true ∧
      (∀ p ∈ [(mLock2, Beh.ret 7)], p.2.isRet = true) ∧
      2 * [(mLock2, Beh.ret 7)].length + 1 < 10 ∧
      BusLocker.handle 10 11 sIdle mLock1 (seqB [(mLock2, Beh.ret 7)] 1) =
        some ({ default_timeout := sIdle.default_timeout,
                timeout := mLock1.locking_timeout.getD sIdle.default_timeout,
                locking_thread := 0,
                queue := [(mLock2, Beh.ret 7)],
                time := sIdle.time,
                trace := sIdle.trace ++ mLock1.mid ::
                  [(mLock2, Beh.ret 7)].map (fun p => p.1.mid) },
          .ok (some 1))) :=
  ⟨⟨by decide, by decide, by decide,
      busLocker_postpone_and_fifo_drain.1 0 11 sOwned mLock1 (.ret 0)
        (by decide) (by decide) (by decide)⟩,
    ⟨by decide, by decide, by decide, by decide, by decide, by decide,
      busLocker_postpone_and_fifo_drain.2 [(mLock2, Beh.ret 7)] 1 10 11 sIdle mLock1
        (by decide) (by decide) (by decide) (by decide) (by decide) (by decide)⟩⟩

/-- Every Nat is below 10 to the power of its digit count. -/
theorem lt_pow_numDigits (t : Nat) : t < 10 ^ numDigits t :=
  Nat.lt_pow_succ_log_self (by norm_num) t

/-- C7 counterexample: the pairs (pid 1, tid 23) and (pid 12, tid 3) are
distinct but the decimal-concatenation identifier maps both to 123, so the
map is not injective on (process id, thread id) pairs. -/
theorem get_thread_id_not_injective :
    get_thread_id 1 23 = get_thread_id 12 3 ∧ ((1, 23) : Nat × Nat) ≠ (12, 3) := by
  constructor
  · have h23 : Nat.log 10 23 = 1 :=
      Nat.log_eq_of_pow_le_of_lt_pow (by norm_num) (by norm_num)
    have h3 : Nat.log 10 3 = 0 :=
      Nat.log_eq_of_pow_le_of_lt_pow (by norm_num) (by norm_num)
    simp [get_thread_id, numDigits, h23, h3]
  · decide

/-- C7 (amended): the identifier int(str(pid) + str(tid)) is injective only
on pairs whose thread ids have the same number of decimal digits — for two
such pairs, equal identifiers force equal pids and equal tids — and for any
pid of at least 1 (every OS process id) the identifier is never 0, the
unlocked sentinel. -/
theorem get_thread_id_digit_aligned_injective :
    (∀ p1 t1 p2 t2 : Nat, numDigits t1 = numDigits t2 →
      get_thread_id p1 t1 = get_thread_id p2 t2 → p1 = p2 ∧ t1 = t2) ∧
    (∀ p t : Nat, 1 ≤ p → get_thread_id p t ≠ 0) := by
  constructor
  · intro p1 t1 p2 t2 hdig heq
    unfold get_thread_id at heq
    rw [hdig] at heq
    have hD : 0 < 10 ^ numDigits t2 := Nat.pos_pow_of_pos _ (by norm_num)
    have ht1 : t1 < 10 ^ numDigits t2 := hdig ▸ lt_pow_numDigits t1
    have ht2 : t2 < 10 ^ numDigits t2 := lt_pow_numDigits t2
    have h1 : (p1 * 10 ^ numDigits t2 + t1) % 10 ^ numDigits t2 = t1 := by
      rw [Nat.add_mod, Nat.mul_mod_left]
      simp [Nat.mod_eq_of_lt ht1]
    have h2 : (p2 * 10 ^ numDigits t2 + t2) % 10 ^ numDigits t2 = t2 := by
      rw [Nat.add_mod, Nat.mul_mod_left]
      simp [Nat.mod_eq_of_lt ht2]
    have hmod : (p1 * 10 ^ numDigits t2 + t1) % 10 ^ numDigits t2 =
        (p2 * 10 ^ numDigits t2 + t2) % 10 ^ numDigits t2 := by rw [heq]
    rw [h1, h2] at hmod
    subst hmod
    have hp : p1 = p2 := by
      have hc := Nat.add_right_cancel heq
      exact Nat.eq_of_mul_eq_mul_right hD hc
    exact ⟨hp, rfl⟩
  · intro p t hp
    have hD : 0 < 10 ^ numDigits t := Nat.pos_pow_of_pos _ (by norm_num)
    have : 0 < p * 10 ^ numDigits t := Nat.mul_pos hp hD
    unfold get_thread_id
    omega

/-- C7 amended-theorem witness: same-digit-count tids 45 and 45 with equal
identifiers force equal pairs, and the identifier of (pid 1, tid 0) is not
the unlocked sentinel 0. -/
theorem get_thread_id_digit_aligned_injective_witness :
    (numDigits 45 = numDigits 45 ∧ get_thread_id 3 45 = get_thread_id 3 45 ∧
      (3 = 3 ∧ 45 = 45)) ∧
    (1 ≤ 1 ∧ get_thread_id 1 0 ≠ 0) :=
  ⟨⟨rfl, rfl, get_thread_id_digit_aligned_injective.1 3 45 3 45 rfl rfl⟩,
    ⟨Nat.le_refl 1, get_thread_id_digit_aligned_injective.2 1 0 (Nat.le_refl 1)⟩⟩

/-- C8: for logging-marked messages the MessageLogger emits an INFO record
with the type-specific gerund before handling ("Executing command",
"Dispatching event", "Handling message"), then on success an INFO record
"Successfully {verb-ed} ..." and returns the handler's value; on an
exception it emits exactly one ERROR record "Failed {verb-ing} ..." and
re-raises the same exception; messages without the logging marker pass
through with zero records and an unchanged outcome. -/
theorem messageLogger_handle_spec :
    (∀ (n : String) (v : Option Nat),
      MessageLogger.handle ⟨.command, n, true⟩ (.ok v) =
        ([(.info, "Executing command <" ++ n ++ ">"),
          (.info, "Successfully executed command <" ++ n ++ ">")], .ok v)) ∧
    (∀ (n : String) (e : Nat),
      MessageLogger.handle ⟨.command, n, true⟩ (.error e) =
        ([(.info, "Executing command <" ++ n ++ ">"),
          (.error, "Failed executing command <" ++ n ++ ">")], .error e)) ∧
    (∀ (n : String) (v : Option Nat),
      MessageLogger.handle ⟨.event, n, true⟩ (.ok v) =
        ([(.info, "Dispatching event <" ++ n ++ ">"),
          (.info, "Successfully dispatched event <" ++ n ++ ">")], .ok v)) ∧
    (∀ (n : String) (e : Nat),
      MessageLogger.handle ⟨.event, n, true⟩ (.error e) =
        ([(.info, "Dispatching event <" ++ n ++ ">"),
          (.error, "Failed dispatching event <" ++ n ++ ">")], .error e)) ∧
    (∀ (n : String) (v : Option Nat),
      MessageLogger.handle ⟨.generic, n, true⟩ (.ok v) =
        ([(.info, "Handling message <" ++ n ++ ">"),
          (.info, "Successfully handled message <" ++ n ++ ">")], .ok v)) ∧
    (∀ (n : String) (e : Nat),
      MessageLogger.handle ⟨.generic, n, true⟩ (.error e) =
        ([(.info, "Handling message <" ++ n ++ ">"),
          (.error, "Failed handling message <" ++ n ++ ">")], .error e)) ∧
    (∀ (m : LogMsg) (next : Except Nat (Option Nat)),
      m.logging_message = false → MessageLogger.handle m next = ([], next)) := by
  refine ⟨fun n v => rfl, fun n e => rfl, fun n v => rfl, fun n e => rfl,
    fun n v => rfl, fun n e => rfl, fun m next h => ?_⟩
  simp [MessageLogger.handle, h]

/-- C8 witness: the logger at a concrete command, a failing command and a
non-logging message. -/
theorem messageLogger_handle_spec_witness :
    MessageLogger.handle ⟨.command, "PrintCommand", true⟩ (.ok (some 2)) =
      ([(.info, "Executing command <PrintCommand>"),
        (.info, "Successfully executed command <PrintCommand>")], .ok (some 2)) ∧
    MessageLogger.handle ⟨.event, "ExampleEvent", true⟩ (.error 9) =
      ([(.info, "Dispatching event <ExampleEvent>"),
        (.error, "Failed dispatching event <ExampleEvent>")], .error 9) ∧
    ((⟨.generic, "Plain", false⟩ : LogMsg).logging_message = false ∧
      MessageLogger.handle ⟨.generic, "Plain", false⟩ (.ok none) = ([], .ok none)) :=
  ⟨messageLogger_handle_spec.1 "PrintCommand" (some 2),
    messageLogger_handle_spec.2.2.2.1 "ExampleEvent" 9,
    ⟨rfl, (messageLogger_handle_spec.2.2.2.2.2.2 ⟨.generic, "Plain", false⟩
      (.ok none) rfl)⟩⟩

/-- C3: CommandBus.execute resolution — with a valid explicit handler that
differs from the handler registered for the command's runtime type it
raises TooManyHandlersError without invoking anything; with no registered
and no explicit handler it raises MissingHandlerError; otherwise it invokes
the resolved handler's handle(command) exactly once and returns that
call's result, whatever value (including None) it is. -/
theorem commandBus_execute_resolution :
    (∀ (applyH : CmdHandler → Cmd → Option Nat) (reg : List (Nat × CmdHandler))
        (c : Cmd) (hh r : CmdHandler),
      lookupCmdHandler reg c.ctype = some r →
      CommandBus._validate_handler c.ctype hh = none → hh ≠ r →
      CommandBus.execute applyH reg c (some hh) = ([], .error .tooManyHandlers)) ∧
    (∀ (applyH : CmdHandler → Cmd → Option Nat) (reg : List (Nat × CmdHandler))
        (c : Cmd),
      lookupCmdHandler reg c.ctype = none →
      CommandBus.execute applyH reg c none = ([], .error .missingHandler)) ∧
    (∀ (applyH : CmdHandler → Cmd → Option Nat) (reg : List (Nat × CmdHandler))
        (c : Cmd) (r : CmdHandler),
      lookupCmdHandler reg c.ctype = some r →
      CommandBus.execute applyH reg c none = ([(r, c)], .ok (applyH r c))) ∧
    (∀ (applyH : CmdHandler → Cmd → Option Nat) (reg : List (Nat × CmdHandler))
        (c : Cmd) (hh : CmdHandler),
      CommandBus._validate_handler c.ctype hh = none →
      lookupCmdHandler reg c.ctype = none →
      CommandBus.execute applyH reg c (some hh) = ([(hh, c)], .ok (applyH hh c))) ∧
    (∀ (applyH : CmdHandler → Cmd → Option Nat) (reg : List (Nat × CmdHandler))
        (c : Cmd) (hh : CmdHandler),
      CommandBus._validate_handler c.ctype hh = none →
      lookupCmdHandler reg c.ctype = some hh →
      CommandBus.execute applyH reg c (some hh) = ([(hh, c)], .ok (applyH hh c))) := by
  refine ⟨?_, ?_, ?_, ?_, ?_⟩
  · intro applyH reg c hh r hlook hval hne
    simp [CommandBus.execute, hlook, hval, Option.orElse, hne]
  · intro applyH reg c hlook
    simp [CommandBus.execute, hlook, Option.orElse]
  · intro applyH reg c r hlook
    simp [CommandBus.execute, hlook, Option.orElse]
  · intro applyH reg c hh hval hlook
    simp [CommandBus.execute, hlook, hval, Option.orElse]
  · intro applyH reg c hh hval hlook
    simp [CommandBus.execute, hlook, hval, Option.orElse]

/-- C3 witness: a registry with handler 1 registered for command type 7,
exercised with a conflicting explicit handler, a missing handler, the
registered handler, an explicit handler on an empty registry, and a
matching explicit handler.  applyH returns hid + ctype. -/
theorem commandBus_execute_resolution_witness :
    (lookupCmdHandler [(7, ⟨1, 7, false⟩)] 7 = some ⟨1, 7, false⟩ ∧
      CommandBus._validate_handler 7 ⟨2, 7, false⟩ = none ∧
      (⟨2, 7, false⟩ : CmdHandler) ≠ ⟨1, 7, false⟩ ∧
      CommandBus.execute (fun h c => some (h.hid + c.ctype)) [(7, ⟨1, 7, false⟩)]
        ⟨7⟩ (some ⟨2, 7, false⟩) = ([], .error .tooManyHandlers)) ∧
    (lookupCmdHandler [] 7 = none ∧
      CommandBus.execute (fun h c => some (h.hid + c.ctype)) [] ⟨7⟩ none =
        ([], .error .missingHandler)) ∧
    (CommandBus.execute (fun h c => some (h.hid + c.ctype)) [(7, ⟨1, 7, false⟩)]
        ⟨7⟩ none = ([(⟨1, 7, false⟩, ⟨7⟩)], .ok (some 8))) ∧
    (CommandBus.execute (fun h c => some (h.hid + c.ctype)) [] ⟨7⟩
        (some ⟨2, 7, false⟩) = ([(⟨2, 7, false⟩, ⟨7⟩)], .ok (some 9))) ∧
    (CommandBus.execute (fun h c => some (h.hid + c.ctype)) [(7, ⟨1, 7, false⟩)]
        ⟨7⟩ (some ⟨1, 7, false⟩) = ([(⟨1, 7, false⟩, ⟨7⟩)], .ok (some 8))) :=
  ⟨⟨by decide, by decide, by decide,
      commandBus_execute_resolution.1 (fun h c => some (h.hid + c.ctype))
        [(7, ⟨1, 7, false⟩)] ⟨7⟩ ⟨2, 7, false⟩ ⟨1, 7, false⟩
        (by decide) (by decide) (by decide)⟩,
    ⟨by decide,
      commandBus_execute_resolution.2.1 (fun h c => some (h.hid + c.ctype)) [] ⟨7⟩
        (by decide)⟩,
    commandBus_execute_resolution.2.2.1 (fun h c => some (h.hid + c.ctype))
      [(7, ⟨1, 7, false⟩)] ⟨7⟩ ⟨1, 7, false⟩ (by decide),
    commandBus_execute_resolution.2.2.2.1 (fun h c => some (h.hid + c.ctype)) [] ⟨7⟩
      ⟨2, 7, false⟩ (by decide) (by decide),
    commandBus_execute_resolution.2.2.2.2 (fun h c => some (h.hid + c.ctype))
      [(7, ⟨1, 7, false⟩)] ⟨7⟩ ⟨1, 7, false⟩ (by decide) (by decide)⟩

/-- C4: dispatching an ad hoc handler on an empty bus permanently registers
it — has_handlers for the event's type goes from 0 to 1, and a later
dispatch of the same event type with no ad hoc handlers invokes the earlier
ad hoc handler again — because dispatch extends the registry's own list
object in place instead of building a per-call effective list. -/
theorem eventBus_dispatch_mutates_registry :
    busEmpty.has_handlers 50 = 0 ∧
    (busEmpty.dispatch evDemo (some [hEv1])).1.has_handlers 50 = 1 ∧
    ((busEmpty.dispatch evDemo (some [hEv1])).1.dispatch evDemo none).2 =
      [(hEv1, evDemo)] := by
  refine ⟨rfl, rfl, rfl⟩

/-- C5 counterexample: with two distinct handler instances of the same
class registered for event type 50, removing just the first instance
succeeds but also removes the second instance (nothing of that class is
left registered), whereas the claim says only the first matching occurrence
is removed and the other stays registered. -/
theorem remove_handlers_removes_all_of_type_counterexample :
    hEv2 ∈ busTwo.handlers 50 ∧
    (busTwo.remove_handlers 50 (some [hEv1])).2 = none ∧
    hEv2 ∉ (busTwo.remove_handlers 50 (some [hEv1])).1.handlers 50 := by
  decide

/-- C5 (amended): remove_handlers with handlers omitted clears all handlers
for the type, leaving other types untouched; with handlers given it
processes the requests in order and, for each requested handler, removes
every registered occurrence whose runtime class equals the requested
handler's class (not only the first occurrence) — so for valid requested
handlers of pairwise distinct classes that each have a registered
occurrence, the call succeeds and the type's list is the original list with
all occurrences of the requested classes filtered out — and a request whose
first handler has no registered occurrence of its class raises
MissingHandlerError. -/
theorem eventBus_remove_handlers_by_type :
    (∀ (bus : EventBus) (etype : Nat),
      (bus.remove_handlers etype none).2 = none ∧
      (bus.remove_handlers etype none).1.handlers etype = [] ∧
      (∀ t, t ≠ etype → (bus.remove_handlers etype none).1.handlers t =
        bus.handlers t)) ∧
    (∀ (bus : EventBus) (etype : Nat) (hs : List EvHandler),
      (∀ h ∈ hs, EventBus._validate_handler etype h = none) →
      hs.Pairwise (fun a b => a.htype ≠ b.htype) →
      (∀ h ∈ hs, ∃ r ∈ bus.handlers etype, r.htype = h.htype) →
      (EventBus.removeList etype bus hs).2 = none ∧
      (EventBus.removeList etype bus hs).1.handlers etype =
        (bus.handlers etype).filter
          (fun r => !(hs.any (fun h => r.htype == h.htype))) ∧
      (∀ t, t ≠ etype → (EventBus.removeList etype bus hs).1.handlers t =
        bus.handlers t)) ∧
    (∀ (bus : EventBus) (etype : Nat) (h : EvHandler) (rest : List EvHandler),
      EventBus._validate_handler etype h = none →
      (∀ r ∈ bus.handlers etype, r.htype ≠ h.htype) →
      EventBus.removeList etype bus (h :: rest) = (bus, some .missingHandler)) := by
  refine ⟨?_, ?_, ?_⟩
  · intro bus etype
    refine ⟨rfl, by simp [EventBus.remove_handlers], ?_⟩
    intro t ht
    simp [EventBus.remove_handlers, ht]
  · intro bus etype hs
    induction hs generalizing bus with
    | nil =>
      intro _ _ _
      refine ⟨rfl, by simp [EventBus.removeList], fun t ht => rfl⟩
    | cons h rest ih =>
      intro hval hpw hmatch
      have hvh : EventBus._validate_handler etype h = none := hval h (by simp)
      obtain ⟨r0, hr0mem, hr0ty⟩ := hmatch h (by simp)
      have hemp :
          ((bus.handlers etype).filter (fun r => r.htype == h.htype)).isEmpty =
            false := by
        rw [List.isEmpty_eq_false_iff_exists_mem]
        exact ⟨r0, List.mem_filter.mpr ⟨hr0mem, by simp [hr0ty]⟩⟩
      obtain ⟨hpw1, hpw2⟩ := List.pairwise_cons.mp hpw
      have hval' : ∀ h' ∈ rest, EventBus._validate_handler etype h' = none :=
        fun h' hh' => hval h' (by simp [hh'])
      set bus' : EventBus :=
        { handlers := fun t =>
            if t = etype then
              (bus.handlers etype).filter (fun r => !(r.htype == h.htype))
            else bus.handlers t } with hbus'
      have hmatch' : ∀ h' ∈ rest, ∃ r ∈ bus'.handlers etype, r.htype = h'.htype := by
        intro h' hh'
        obtain ⟨r, hrmem, hrty⟩ := hmatch h' (by simp [hh'])
        refine ⟨r, ?_, hrty⟩
        have : bus'.handlers etype =
            (bus.handlers etype).filter (fun r => !(r.htype == h.htype)) := by
          simp [hbus']
        rw [this]
        refine List.mem_filter.mpr ⟨hrmem, ?_⟩
        have hne := hpw1 h' hh'
        simp [hrty]
        omega
      obtain ⟨ihA, ihB, ihC⟩ := ih bus' hval' hpw2 hmatch'
      have hstep : EventBus.removeList etype bus (h :: rest) =
          EventBus.removeList etype bus' rest := by
        rw [EventBus.removeList, hvh]
        simp only [hemp, Bool.false_eq_true, if_false]
      refine ⟨by rw [hstep]; exact ihA, ?_, ?_⟩
      · rw [hstep, ihB]
        have hbe : bus'.handlers etype =
            (bus.handlers etype).filter (fun r => !(r.htype == h.htype)) := by
          simp [hbus']
        rw [hbe, List.filter_filter]
        apply List.filter_congr
        intro a _
        simp [Bool.not_or, Bool.and_comm]
      · intro t ht
        rw [hstep, ihC t ht]
        simp [hbus', ht]
  · intro bus etype h rest hval hno
    have hempt : (bus.handlers etype).filter (fun r => r.htype == h.htype) = [] := by
      rw [List.filter_eq_nil]
      intro r hr
      simpa using hno r hr
    rw [EventBus.removeList, hval, hempt]
    simp

/-- C5 witness: clearing type 50 on the two-handler bus; removing hEv1
(valid, one class, class 100 present) removes both class-100 instances and
succeeds; requesting the unregistered-class handler hEvOther raises
MissingHandlerError. -/
theorem eventBus_remove_handlers_by_type_witness :
    ((busTwo.remove_handlers 50 none).2 = none ∧
      (busTwo.remove_handlers 50 none).1.handlers 50 = [] ∧
      (busTwo.remove_handlers 50 none).1.handlers 60 = busTwo.handlers 60) ∧
    ((∀ h ∈ [hEv1], EventBus._validate_handler 50 h = none) ∧
      [hEv1].Pairwise (fun a b => a.htype ≠ b.htype) ∧
      (∀ h ∈ [hEv1], ∃ r ∈ busTwo.handlers 50, r.htype = h.htype) ∧
      (EventBus.removeList 50 busTwo [hEv1]).2 = none ∧
      (EventBus.removeList 50 busTwo [hEv1]).1.handlers 50 =
        (busTwo.handlers 50).filter
          (fun r => !([hEv1].any (fun h => r.htype == h.htype)))) ∧
    (EventBus._validate_handler 50 hEvOther = none ∧
      (∀ r ∈ busTwo.handlers 50, r.htype ≠ hEvOther.htype) ∧
      EventBus.removeList 50 busTwo [hEvOther] = (busTwo, some .missingHandler)) := by
  have h1 := eventBus_remove_handlers_by_type.1 busTwo 50
  have h2 := eventBus_remove_handlers_by_type.2.1 busTwo 50 [hEv1]
    (by decide) (by simp) (by decide)
  have h3 := eventBus_remove_handlers_by_type.2.2 busTwo 50 hEvOther []
    (by decide) (by decide)
  exact ⟨⟨h1.1, h1.2.1, h1.2.2 60 (by decide)⟩,
    ⟨by decide, by simp, by decide, h2.1, h2.2.1⟩,
    ⟨by decide, by decide, h3⟩⟩

/-- C9 witness: the wait-loop exit property at a lock released at instant
2, and the degraded timeout path at the concrete locked-by-other state. -/
theorem busLocker_wait_timeout_degrades_witness :
    ((2 : Nat) ≤ wait_loop (fun u => decide (u < 2)) 9 0 ∧
      ((fun u => decide (u < 2)) (wait_loop (fun u => decide (u < 2)) 9 0) = false ∨
        9 < wait_loop (fun u => decide (u < 2)) 9 0) ∧
      (∀ u, 0 ≤ u → u < wait_loop (fun u => decide (u < 2)) 9 0 →
        (fun u => decide (u < 2)) u = true ∧ u ≤ 9)) ∧
    (sLockedByOther.locking_thread ≠ 0 ∧ sLockedByOther.locking_thread ≠ 3 ∧
      mLock1.locking_message = true ∧ sLockedByOther.queue = [] ∧ 1 < 5 ∧
      BusLocker.handle 5 3 sLockedByOther mLock1 (.ret 4) =
        some ({ default_timeout := sLockedByOther.default_timeout,
                timeout := mLock1.locking_timeout.getD sLockedByOther.default_timeout,
                locking_thread := 0,
                queue := [],
                time := sLockedByOther.time +
                  mLock1.locking_timeout.getD sLockedByOther.timeout + 1,
                trace := sLockedByOther.trace ++ [mLock1.mid] },
          .ok (some 4))) :=
  ⟨by
      have h := busLocker_wait_timeout_degrades.1 (fun u => decide (u < 2)) 9 0
      have hv : wait_loop (fun u => decide (u < 2)) 9 0 = 2 := by decide
      exact ⟨by omega, h.2.1, h.2.2⟩,
    ⟨by decide, by decide, by decide, by decide, by decide,
      busLocker_wait_timeout_degrades.2 5 3 4 sLockedByOther mLock1
        (by decide) (by decide) (by decide) (by decide) (by decide)⟩⟩

end BossBus
